import Mathlib

/-!
# Verification of `schemas.py` (fastapi_SQL)

Shallow embedding of the five pydantic-v1 schema classes declared in
`src/schemas.py`:

* `TokenData` — `email: Optional[EmailStr] = None`
* `Token` — `access_token: str`, `token_type: str`
* `UserBase` — `name: str`, `email: EmailStr`, `nickname: Optional[str] = None`
* `UserCreate(UserBase)` — adds `password: str`
* `User(UserBase)` — adds `id: int`, with `Config.orm_mode = True`

Inputs to model construction (`parse_obj`, and `from_orm` for attribute
objects) are finite key/value records.  Values carry the shapes relevant to
these schemas: strings, integers and `None`.  Pydantic v1 semantics embedded
here: required fields error when absent, `Optional` fields default to `None`,
unknown keys are ignored, `str` fields coerce numbers via `str(v)`, `int`
fields coerce numeric strings via `int(v)`, and `None` is rejected for
non-optional fields.  Serialization (`dict`) emits every declared field,
including optional fields that hold `None`.
-/

/-- A pydantic input / output value: a string, an integer, or Python `None`. -/
inductive Value where
  | vStr : String → Value
  | vInt : Int → Value
  | vNone : Value
deriving Repr, DecidableEq

/-- An input record: an association list from field names to values.  It plays
the role both of a `dict` passed to `parse_obj` and of the attribute map of an
object handed to `from_orm`. -/
abbrev Record := List (String × Value)

/-- First-match lookup of a key in a record (Python `dict` access / `getattr`). -/
def lookupField (r : Record) (k : String) : Option Value :=
  match r with
  | [] => none
  | (k', v) :: rest => if k' = k then some v else lookupField rest k

/-- Splits a character list at its first `'@'`: returns the part before and the
part after, or `none` when no `'@'` occurs. -/
def splitAtSign : List Char → Option (List Char × List Char)
  | [] => none
  | c :: rest =>
    if c = '@' then some ([], rest)
    else
      match splitAtSign rest with
      | none => none
      | some (a, b) => some (c :: a, b)

/-- Modelled from the spec: the email syntax check of the external validation
library (pydantic's `EmailStr`, not part of this repository).  The spec states
that an email value is accepted only when it is "a syntactically valid email
address" and that any string "lacking an `@`" fails validation: a string is
accepted exactly when it consists of a nonempty local part, a single `@`, and
a nonempty domain part. -/
def isValidEmail (s : String) : Bool :=
  match splitAtSign s.data with
  | none => false
  | some (lp, dom) => !lp.isEmpty && !dom.isEmpty && !dom.contains '@'

/-- Pydantic v1 validator for a required `str` field: strings pass through,
numbers are coerced with `str(v)`, `None` and a missing value are errors. -/
def validateStr : Option Value → Except String String
  | none => .error "field required"
  | some (.vStr s) => .ok s
  | some (.vInt n) => .ok (toString n)
  | some .vNone => .error "none is not an allowed value"

/-- Accumulates the value of a decimal digit string; `none` on a non-digit. -/
def parseDigitsAux : List Char → Nat → Option Nat
  | [], acc => some acc
  | c :: rest, acc =>
    if c.isDigit then parseDigitsAux rest (acc * 10 + (c.toNat - '0'.toNat))
    else none

/-- Python's `int(s)` on a string: an optional sign followed by at least one
decimal digit; anything else (empty, `"4.5"`, letters) fails. -/
def parseInt? (s : String) : Option Int :=
  match s.data with
  | [] => none
  | '-' :: rest =>
    if rest.isEmpty then none
    else (parseDigitsAux rest 0).map (fun n => -(n : Int))
  | '+' :: rest =>
    if rest.isEmpty then none
    else (parseDigitsAux rest 0).map (fun n => (n : Int))
  | l => (parseDigitsAux l 0).map (fun n => (n : Int))

/-- Pydantic v1 validator for a required `int` field: integers pass through,
decimal strings are coerced with `int(v)`, anything else is an error. -/
def validateInt : Option Value → Except String Int
  | none => .error "field required"
  | some (.vInt n) => .ok n
  | some (.vStr s) =>
    match parseInt? s with
    | some n => .ok n
    | none => .error "value is not a valid integer"
  | some .vNone => .error "none is not an allowed value"

/-- Pydantic v1 validator for a required `EmailStr` field: the value is first
coerced as a string, then the email syntax check is applied. -/
def validateEmail (v : Option Value) : Except String String :=
  match validateStr v with
  | .error e => .error e
  | .ok s => if isValidEmail s then .ok s else .error "value is not a valid email address"

/-- Pydantic v1 validator for `Optional[str] = None`: a missing value and
`None` both give `none`; otherwise the `str` validator applies. -/
def validateOptStr : Option Value → Except String (Option String)
  | none => .ok none
  | some .vNone => .ok none
  | some v => (validateStr (some v)).map some

/-- Pydantic v1 validator for `Optional[EmailStr] = None`: a missing value and
`None` both give `none`; otherwise the `EmailStr` validator applies. -/
def validateOptEmail : Option Value → Except String (Option String)
  | none => .ok none
  | some .vNone => .ok none
  | some v => (validateEmail (some v)).map some

/-- `dict()` rendering of an optional string field: `None` for an absent value. -/
def optToValue : Option String → Value
  | none => .vNone
  | some s => .vStr s

/-- `class TokenData(BaseModel): email: Optional[EmailStr] = None` -/
structure TokenData where
  email : Option String
deriving Repr, DecidableEq

/-- Constructing a `TokenData` from an input record (pydantic `parse_obj`). -/
def TokenData.parse_obj (r : Record) : Except String TokenData :=
  match validateOptEmail (lookupField r "email") with
  | .error e => .error e
  | .ok e => .ok ⟨e⟩

/-- Serialization of a `TokenData` (pydantic `.dict()`). -/
def TokenData.dict (t : TokenData) : Record :=
  [("email", optToValue t.email)]

/-- The fields declared by `TokenData`. -/
def TokenData.fields : List String := ["email"]

/-- `class Token(BaseModel): access_token: str; token_type: str` -/
structure Token where
  access_token : String
  token_type : String
deriving Repr, DecidableEq

/-- Constructing a `Token` from an input record (pydantic `parse_obj`). -/
def Token.parse_obj (r : Record) : Except String Token :=
  match validateStr (lookupField r "access_token"),
        validateStr (lookupField r "token_type") with
  | .ok a, .ok t => .ok ⟨a, t⟩
  | .error e, _ => .error e
  | .ok _, .error e => .error e

/-- Serialization of a `Token` (pydantic `.dict()`). -/
def Token.dict (t : Token) : Record :=
  [("access_token", .vStr t.access_token), ("token_type", .vStr t.token_type)]

/-- The fields declared by `Token`. -/
def Token.fields : List String := ["access_token", "token_type"]

/-- `class UserBase(BaseModel): name: str; email: EmailStr; nickname: Optional[str] = None` -/
structure UserBase where
  name : String
  email : String
  nickname : Option String
deriving Repr, DecidableEq

/-- Constructing a `UserBase` from an input record (pydantic `parse_obj`). -/
def UserBase.parse_obj (r : Record) : Except String UserBase :=
  match validateStr (lookupField r "name"),
        validateEmail (lookupField r "email"),
        validateOptStr (lookupField r "nickname") with
  | .ok n, .ok e, .ok nick => .ok ⟨n, e, nick⟩
  | .error e, _, _ => .error e
  | .ok _, .error e, _ => .error e
  | .ok _, .ok _, .error e => .error e

/-- Serialization of a `UserBase` (pydantic `.dict()`). -/
def UserBase.dict (u : UserBase) : Record :=
  [("name", .vStr u.name), ("email", .vStr u.email), ("nickname", optToValue u.nickname)]

/-- The fields declared by `UserBase`. -/
def UserBase.fields : List String := ["name", "email", "nickname"]

/-- `class UserCreate(UserBase): password: str` — the base fields plus a
required password. -/
structure UserCreate where
  name : String
  email : String
  nickname : Option String
  password : String
deriving Repr, DecidableEq

/-- Constructing a `UserCreate` from an input record (pydantic `parse_obj`):
the inherited `UserBase` fields plus the required `password`. -/
def UserCreate.parse_obj (r : Record) : Except String UserCreate :=
  match UserBase.parse_obj r, validateStr (lookupField r "password") with
  | .ok b, .ok p => .ok ⟨b.name, b.email, b.nickname, p⟩
  | .error e, _ => .error e
  | .ok _, .error e => .error e

/-- Serialization of a `UserCreate` (pydantic `.dict()`). -/
def UserCreate.dict (u : UserCreate) : Record :=
  [("name", .vStr u.name), ("email", .vStr u.email), ("nickname", optToValue u.nickname),
   ("password", .vStr u.password)]

/-- The fields declared by `UserCreate`. -/
def UserCreate.fields : List String := ["name", "email", "nickname", "password"]

/-- `class User(UserBase): id: int` — the base fields plus the persisted id;
no password field exists on this model. -/
structure User where
  name : String
  email : String
  nickname : Option String
  id : Int
deriving Repr, DecidableEq

/-- Constructing a `User` from an input record (pydantic `parse_obj`):
the inherited `UserBase` fields plus the required `id`. -/
def User.parse_obj (r : Record) : Except String User :=
  match UserBase.parse_obj r, validateInt (lookupField r "id") with
  | .ok b, .ok i => .ok ⟨b.name, b.email, b.nickname, i⟩
  | .error e, _ => .error e
  | .ok _, .error e => .error e

/-- Serialization of a `User` (pydantic `.dict()`).  The declared fields are
`name`, `email`, `nickname`, `id`; `password` is not among them. -/
def User.dict (u : User) : Record :=
  [("name", .vStr u.name), ("email", .vStr u.email), ("nickname", optToValue u.nickname),
   ("id", .vInt u.id)]

/-- The fields declared by `User`. -/
def User.fields : List String := ["name", "email", "nickname", "id"]

/-- `class Config: orm_mode = True` on `User`. -/
def User.orm_mode : Bool := true

/-- Constructing a `User` from an attribute object (pydantic `from_orm`): only
permitted because `User.orm_mode` is set; field values are read off the
object's attributes like record entries. -/
def User.from_orm (obj : Record) : Except String User :=
  if User.orm_mode then User.parse_obj obj
  else .error "you must set the config attribute orm_mode to use from_orm"

/-- Well-typed input for `TokenData`: the optional email, when present, is a
syntactically valid email string or `None`. -/
def TokenData.wellTyped (r : Record) : Bool :=
  match lookupField r "email" with
  | none => true
  | some .vNone => true
  | some (.vStr s) => isValidEmail s
  | some (.vInt _) => false

/-- A value acceptable, without coercion, for a required `str` field. -/
def strShaped : Option Value → Bool
  | some (.vStr _) => true
  | _ => false

/-- A value acceptable, without coercion, for an `Optional[str]` field. -/
def optStrShaped : Option Value → Bool
  | none => true
  | some .vNone => true
  | some (.vStr _) => true
  | some (.vInt _) => false

/-- A value acceptable for a required `EmailStr` field. -/
def emailShaped : Option Value → Bool
  | some (.vStr s) => isValidEmail s
  | _ => false

/-- A value acceptable, without coercion, for a required `int` field. -/
def intShaped : Option Value → Bool
  | some (.vInt _) => true
  | _ => false

/-- Well-typed input for `Token`: both strings present. -/
def Token.wellTyped (r : Record) : Bool :=
  strShaped (lookupField r "access_token") && strShaped (lookupField r "token_type")

/-- Well-typed input for `UserBase`. -/
def UserBase.wellTyped (r : Record) : Bool :=
  strShaped (lookupField r "name") && emailShaped (lookupField r "email") &&
    optStrShaped (lookupField r "nickname")

/-- Well-typed input for `UserCreate`. -/
def UserCreate.wellTyped (r : Record) : Bool :=
  UserBase.wellTyped r && strShaped (lookupField r "password")

/-- Well-typed input for `User`. -/
def User.wellTyped (r : Record) : Bool :=
  UserBase.wellTyped r && intShaped (lookupField r "id")

/-! ## Helper lemmas -/

theorem lookupField_cons_ne {k' k : String} (v : Value) (d : Record) (h : k' ≠ k) :
    lookupField ((k', v) :: d) k = lookupField d k := by
  simp [lookupField, h]

theorem splitAtSign_eq_none {l : List Char} (h : '@' ∉ l) : splitAtSign l = none := by
  induction l with
  | nil => rfl
  | cons c rest ih =>
    simp only [List.mem_cons, not_or] at h
    simp [splitAtSign, Ne.symm h.1, ih h.2]

theorem isValidEmail_false_of_no_at {s : String} (h : '@' ∉ s.data) :
    isValidEmail s = false := by
  simp [isValidEmail, splitAtSign_eq_none h]

theorem validateStr_ok_of_strShaped {v : Option Value} (h : strShaped v = true) :
    ∃ s, v = some (.vStr s) ∧ validateStr v = .ok s := by
  match v with
  | some (.vStr s) => exact ⟨s, rfl, rfl⟩
  | none | some (.vInt _) | some .vNone => simp [strShaped] at h

theorem validateEmail_ok_of_emailShaped {v : Option Value} (h : emailShaped v = true) :
    ∃ s, v = some (.vStr s) ∧ isValidEmail s = true ∧ validateEmail v = .ok s := by
  match v with
  | some (.vStr s) =>
    simp only [emailShaped] at h
    exact ⟨s, rfl, h, by simp [validateEmail, validateStr, h]⟩
  | none | some (.vInt _) | some .vNone => simp [emailShaped] at h

theorem validateOptStr_ok_of_optStrShaped {v : Option Value} (h : optStrShaped v = true) :
    ∃ o, validateOptStr v = .ok o := by
  match v with
  | none => exact ⟨none, rfl⟩
  | some .vNone => exact ⟨none, rfl⟩
  | some (.vStr s) => exact ⟨some s, rfl⟩
  | some (.vInt _) => simp [optStrShaped] at h

theorem validateInt_ok_of_intShaped {v : Option Value} (h : intShaped v = true) :
    ∃ n, v = some (.vInt n) ∧ validateInt v = .ok n := by
  match v with
  | some (.vInt n) => exact ⟨n, rfl, rfl⟩
  | none | some (.vStr _) | some .vNone => simp [intShaped] at h

theorem validateEmail_ok_valid {v : Option Value} {s : String}
    (h : validateEmail v = .ok s) : isValidEmail s = true := by
  unfold validateEmail at h
  cases hv : validateStr v with
  | error e => rw [hv] at h; simp at h
  | ok t =>
    rw [hv] at h
    by_cases hval : isValidEmail t
    · simp only [hval, if_true] at h
      injection h with h
      rw [← h]; exact hval
    · simp [hval] at h

theorem validateOptEmail_ok_valid {v : Option Value} {s : String}
    (h : validateOptEmail v = .ok (some s)) : isValidEmail s = true := by
  match v with
  | none => simp [validateOptEmail] at h
  | some .vNone => simp [validateOptEmail] at h
  | some (.vStr t) =>
    simp only [validateOptEmail] at h
    cases he : validateEmail (some (.vStr t)) with
    | error e => rw [he] at h; cases h
    | ok u =>
      rw [he] at h
      injection h with h
      injection h with h
      rw [← h]; exact validateEmail_ok_valid he
  | some (.vInt n) =>
    simp only [validateOptEmail] at h
    cases he : validateEmail (some (.vInt n)) with
    | error e => rw [he] at h; cases h
    | ok u =>
      rw [he] at h
      injection h with h
      injection h with h
      rw [← h]; exact validateEmail_ok_valid he

theorem validateEmail_vStr_valid {s : String} (h : isValidEmail s = true) :
    validateEmail (some (.vStr s)) = .ok s := by
  simp [validateEmail, validateStr, h]

theorem validateOptStr_optToValue (o : Option String) :
    validateOptStr (some (optToValue o)) = .ok o := by
  cases o <;> rfl

theorem exists_error_of_isOk_false {α : Type} {x : Except String α}
    (h : x.isOk = false) : ∃ e, x = .error e := by
  cases x with
  | error e => exact ⟨e, rfl⟩
  | ok a => simp [Except.isOk, Except.toBool] at h

theorem userBase_ok_of_wellTyped {d : Record}
    (h : UserBase.wellTyped d = true) : ∃ b, UserBase.parse_obj d = .ok b := by
  unfold UserBase.wellTyped at h
  simp only [Bool.and_eq_true] at h
  obtain ⟨⟨h1, h2⟩, h3⟩ := h
  obtain ⟨n, hn, hn'⟩ := validateStr_ok_of_strShaped h1
  obtain ⟨e, he, hev, he'⟩ := validateEmail_ok_of_emailShaped h2
  obtain ⟨o, ho⟩ := validateOptStr_ok_of_optStrShaped h3
  refine ⟨⟨n, e, o⟩, ?_⟩
  unfold UserBase.parse_obj
  rw [hn', he', ho]

theorem UserBase.parse_obj_error_of_name {d : Record} {e : String}
    (h : validateStr (lookupField d "name") = .error e) :
    (UserBase.parse_obj d).isOk = false := by
  unfold UserBase.parse_obj
  rw [h]
  cases validateEmail (lookupField d "email") <;>
    cases validateOptStr (lookupField d "nickname") <;> rfl

theorem UserBase.parse_obj_error_of_email {d : Record} {e : String}
    (h : validateEmail (lookupField d "email") = .error e) :
    (UserBase.parse_obj d).isOk = false := by
  unfold UserBase.parse_obj
  rw [h]
  cases validateStr (lookupField d "name") <;>
    cases validateOptStr (lookupField d "nickname") <;> rfl

theorem userCreate_error_of_base_error {d : Record} {e : String}
    (h : UserBase.parse_obj d = .error e) :
    (UserCreate.parse_obj d).isOk = false := by
  unfold UserCreate.parse_obj
  rw [h]
  cases validateStr (lookupField d "password") <;> rfl

theorem user_error_of_base_error {d : Record} {e : String}
    (h : UserBase.parse_obj d = .error e) :
    (User.parse_obj d).isOk = false := by
  unfold User.parse_obj
  rw [h]
  cases validateInt (lookupField d "id") <;> rfl

theorem userBase_email_valid_of_ok {d : Record} {u : UserBase}
    (h : UserBase.parse_obj d = .ok u) : isValidEmail u.email = true := by
  unfold UserBase.parse_obj at h
  cases hn : validateStr (lookupField d "name") with
  | error e => rw [hn] at h; simp at h
  | ok n =>
  cases he : validateEmail (lookupField d "email") with
  | error e => rw [hn, he] at h; simp at h
  | ok em =>
  cases ho : validateOptStr (lookupField d "nickname") with
  | error e => rw [hn, he, ho] at h; simp at h
  | ok o =>
    rw [hn, he, ho] at h
    injection h with h
    subst h
    exact validateEmail_ok_valid he

theorem tokenData_roundtrip_dict {d : Record} {t : TokenData}
    (h : TokenData.parse_obj d = .ok t) : TokenData.parse_obj t.dict = .ok t := by
  unfold TokenData.parse_obj at h ⊢
  cases he : validateOptEmail (lookupField d "email") with
  | error e => rw [he] at h; simp at h
  | ok o =>
    rw [he] at h
    injection h with h
    subst h
    cases o with
    | none => rfl
    | some s =>
      have hv : isValidEmail s = true := validateOptEmail_ok_valid he
      simp [TokenData.dict, lookupField, optToValue, validateOptEmail,
        validateEmail_vStr_valid hv, Except.map]

theorem token_roundtrip_dict (t : Token) : Token.parse_obj t.dict = .ok t := by
  simp [Token.parse_obj, Token.dict, lookupField, validateStr]

theorem userBase_roundtrip_dict {d : Record} {u : UserBase}
    (h : UserBase.parse_obj d = .ok u) : UserBase.parse_obj u.dict = .ok u := by
  have hv : isValidEmail u.email = true := userBase_email_valid_of_ok h
  unfold UserBase.parse_obj
  simp [UserBase.dict, lookupField, validateStr,
    validateEmail_vStr_valid hv, validateOptStr_optToValue]

theorem userCreate_email_valid_of_ok {d : Record} {u : UserCreate}
    (h : UserCreate.parse_obj d = .ok u) : isValidEmail u.email = true := by
  unfold UserCreate.parse_obj at h
  cases hb : UserBase.parse_obj d with
  | error e => rw [hb] at h; simp at h
  | ok b =>
  cases hp : validateStr (lookupField d "password") with
  | error e => rw [hb, hp] at h; simp at h
  | ok p =>
    rw [hb, hp] at h
    injection h with h
    subst h
    exact userBase_email_valid_of_ok hb

theorem user_email_valid_of_ok {d : Record} {u : User}
    (h : User.parse_obj d = .ok u) : isValidEmail u.email = true := by
  unfold User.parse_obj at h
  cases hb : UserBase.parse_obj d with
  | error e => rw [hb] at h; simp at h
  | ok b =>
  cases hi : validateInt (lookupField d "id") with
  | error e => rw [hb, hi] at h; simp at h
  | ok i =>
    rw [hb, hi] at h
    injection h with h
    subst h
    exact userBase_email_valid_of_ok hb

theorem userCreate_roundtrip_dict {d : Record} {u : UserCreate}
    (h : UserCreate.parse_obj d = .ok u) : UserCreate.parse_obj u.dict = .ok u := by
  have hv : isValidEmail u.email = true := userCreate_email_valid_of_ok h
  unfold UserCreate.parse_obj UserBase.parse_obj
  simp [UserCreate.dict, lookupField, validateStr,
    validateEmail_vStr_valid hv, validateOptStr_optToValue]

theorem user_roundtrip_dict {d : Record} {u : User}
    (h : User.parse_obj d = .ok u) : User.parse_obj u.dict = .ok u := by
  have hv : isValidEmail u.email = true := user_email_valid_of_ok h
  unfold User.parse_obj UserBase.parse_obj
  simp [User.dict, lookupField, validateStr, validateInt,
    validateEmail_vStr_valid hv, validateOptStr_optToValue]

theorem tokenData_ok_of_wellTyped {d : Record}
    (h : TokenData.wellTyped d = true) : ∃ t, TokenData.parse_obj d = .ok t := by
  unfold TokenData.wellTyped at h
  unfold TokenData.parse_obj
  cases hv : lookupField d "email" with
  | none => exact ⟨⟨none⟩, rfl⟩
  | some val =>
    rw [hv] at h
    cases val with
    | vStr s =>
      simp only [] at h
      exact ⟨⟨some s⟩, by
        simp [validateOptEmail, validateEmail_vStr_valid h, Except.map]⟩
    | vInt n => simp at h
    | vNone => exact ⟨⟨none⟩, rfl⟩

theorem token_ok_of_wellTyped {d : Record}
    (h : Token.wellTyped d = true) : ∃ t, Token.parse_obj d = .ok t := by
  unfold Token.wellTyped at h
  simp only [Bool.and_eq_true] at h
  obtain ⟨a, ha, ha'⟩ := validateStr_ok_of_strShaped h.1
  obtain ⟨b, hb, hb'⟩ := validateStr_ok_of_strShaped h.2
  refine ⟨⟨a, b⟩, ?_⟩
  unfold Token.parse_obj
  rw [ha', hb']

theorem userCreate_ok_of_wellTyped {d : Record}
    (h : UserCreate.wellTyped d = true) : ∃ u, UserCreate.parse_obj d = .ok u := by
  unfold UserCreate.wellTyped at h
  simp only [Bool.and_eq_true] at h
  obtain ⟨b, hb⟩ := userBase_ok_of_wellTyped h.1
  obtain ⟨p, hp, hp'⟩ := validateStr_ok_of_strShaped h.2
  refine ⟨⟨b.name, b.email, b.nickname, p⟩, ?_⟩
  unfold UserCreate.parse_obj
  rw [hb, hp']

theorem user_ok_of_wellTyped {d : Record}
    (h : User.wellTyped d = true) : ∃ u, User.parse_obj d = .ok u := by
  unfold User.wellTyped at h
  simp only [Bool.and_eq_true] at h
  obtain ⟨b, hb⟩ := userBase_ok_of_wellTyped h.1
  obtain ⟨i, hi, hi'⟩ := validateInt_ok_of_intShaped h.2
  refine ⟨⟨b.name, b.email, b.nickname, i⟩, ?_⟩
  unfold User.parse_obj
  rw [hb, hi']

theorem tokenData_extra_key {k : String} (v : Value) (d : Record)
    (h1 : k ≠ "email") :
    TokenData.parse_obj ((k, v) :: d) = TokenData.parse_obj d := by
  unfold TokenData.parse_obj
  rw [lookupField_cons_ne v d h1]

theorem token_extra_key {k : String} (v : Value) (d : Record)
    (h1 : k ≠ "access_token") (h2 : k ≠ "token_type") :
    Token.parse_obj ((k, v) :: d) = Token.parse_obj d := by
  unfold Token.parse_obj
  rw [lookupField_cons_ne v d h1, lookupField_cons_ne v d h2]

theorem userBase_extra_key {k : String} (v : Value) (d : Record)
    (h1 : k ≠ "name") (h2 : k ≠ "email") (h3 : k ≠ "nickname") :
    UserBase.parse_obj ((k, v) :: d) = UserBase.parse_obj d := by
  unfold UserBase.parse_obj
  rw [lookupField_cons_ne v d h1, lookupField_cons_ne v d h2, lookupField_cons_ne v d h3]

theorem userCreate_extra_key {k : String} (v : Value) (d : Record)
    (h1 : k ≠ "name") (h2 : k ≠ "email") (h3 : k ≠ "nickname") (h4 : k ≠ "password") :
    UserCreate.parse_obj ((k, v) :: d) = UserCreate.parse_obj d := by
  unfold UserCreate.parse_obj
  rw [userBase_extra_key v d h1 h2 h3, lookupField_cons_ne v d h4]

theorem user_extra_key {k : String} (v : Value) (d : Record)
    (h1 : k ≠ "name") (h2 : k ≠ "email") (h3 : k ≠ "nickname") (h4 : k ≠ "id") :
    User.parse_obj ((k, v) :: d) = User.parse_obj d := by
  unfold User.parse_obj
  rw [userBase_extra_key v d h1 h2 h3, lookupField_cons_ne v d h4]

/-! ## Claims -/

/-- C1: a serialized `User` carries exactly the fields `name`, `email`,
`nickname`, `id` and never a `password` field; and two input records that
agree on the declared `User` fields (in particular, records differing only in
a `password` entry) construct the same `User` and hence serialize
identically. -/
theorem user_serialization_excludes_password (u : User) (d₁ d₂ : Record)
    (h : ∀ k ∈ User.fields, lookupField d₁ k = lookupField d₂ k) :
    ((User.dict u).map Prod.fst = User.fields ∧ "password" ∉ User.fields) ∧
    User.parse_obj d₁ = User.parse_obj d₂ := by
  refine ⟨⟨rfl, by decide⟩, ?_⟩
  unfold User.parse_obj UserBase.parse_obj
  rw [h "name" (by decide), h "email" (by decide), h "nickname" (by decide),
    h "id" (by decide)]

/-- Witness for C1 at a concrete persisted record carrying a password. -/
theorem user_serialization_excludes_password_witness :
    ((User.dict ⟨"Ann", "ann@example.com", none, 7⟩).map Prod.fst = User.fields ∧
      "password" ∉ User.fields) ∧
    User.parse_obj [("name", .vStr "Ann"), ("email", .vStr "ann@example.com"),
        ("id", .vInt 7), ("password", .vStr "secret1")] =
      User.parse_obj [("name", .vStr "Ann"), ("email", .vStr "ann@example.com"),
        ("id", .vInt 7), ("password", .vStr "hunter2")] :=
  user_serialization_excludes_password ⟨"Ann", "ann@example.com", none, 7⟩
    [("name", .vStr "Ann"), ("email", .vStr "ann@example.com"),
      ("id", .vInt 7), ("password", .vStr "secret1")]
    [("name", .vStr "Ann"), ("email", .vStr "ann@example.com"),
      ("id", .vInt 7), ("password", .vStr "hunter2")]
    (by decide)

/-- C2: on an input whose `UserBase` fields are well-typed, `UserCreate`
construction fails when the `password` field is missing, and succeeds when a
`password` string is present. -/
theorem userCreate_password_required (d : Record) :
    (UserBase.wellTyped d = true → lookupField d "password" = none →
      (UserCreate.parse_obj d).isOk = false) ∧
    (UserBase.wellTyped d = true → strShaped (lookupField d "password") = true →
      (UserCreate.parse_obj d).isOk = true) := by
  constructor
  · intro _ hp
    unfold UserCreate.parse_obj
    rw [hp]
    cases UserBase.parse_obj d <;> rfl
  · intro hb hp
    have hw : UserCreate.wellTyped d = true := by
      unfold UserCreate.wellTyped
      rw [hb, hp]
      rfl
    obtain ⟨u, hu⟩ := userCreate_ok_of_wellTyped hw
    rw [hu]
    rfl

/-- Witness for C2: missing password rejected, present password accepted. -/
theorem userCreate_password_required_witness :
    (UserCreate.parse_obj [("name", .vStr "Ann"), ("email", .vStr "a@b.co")]).isOk
        = false ∧
    (UserCreate.parse_obj [("name", .vStr "Ann"), ("email", .vStr "a@b.co"),
        ("password", .vStr "pw")]).isOk = true :=
  ⟨(userCreate_password_required [("name", .vStr "Ann"), ("email", .vStr "a@b.co")]).1
      (by decide) (by decide),
   (userCreate_password_required [("name", .vStr "Ann"), ("email", .vStr "a@b.co"),
        ("password", .vStr "pw")]).2 (by decide) (by decide)⟩

/-- C3: in every schema that declares an email field (`TokenData`, `UserBase`,
`UserCreate`, `User`), an email string containing no `@` character makes
construction fail. -/
theorem email_without_at_rejected (d : Record) (s : String)
    (hs : '@' ∉ s.data) (he : lookupField d "email" = some (.vStr s)) :
    (TokenData.parse_obj d).isOk = false ∧
    (UserBase.parse_obj d).isOk = false ∧
    (UserCreate.parse_obj d).isOk = false ∧
    (User.parse_obj d).isOk = false := by
  have hv : isValidEmail s = false := isValidEmail_false_of_no_at hs
  have hee : validateEmail (lookupField d "email") =
      .error "value is not a valid email address" := by
    rw [he]
    simp [validateEmail, validateStr, hv]
  have h1 : (TokenData.parse_obj d).isOk = false := by
    unfold TokenData.parse_obj
    rw [he]
    simp [validateOptEmail, validateEmail, validateStr, hv, Except.map,
      Except.isOk, Except.toBool]
  have h2 := UserBase.parse_obj_error_of_email hee
  obtain ⟨e, he2⟩ := exists_error_of_isOk_false h2
  exact ⟨h1, h2, userCreate_error_of_base_error he2,
    user_error_of_base_error he2⟩

/-- Witness for C3 at the concrete at-less string `"notanemail"`. -/
theorem email_without_at_rejected_witness :
    (TokenData.parse_obj [("email", .vStr "notanemail")]).isOk = false ∧
    (UserBase.parse_obj [("email", .vStr "notanemail")]).isOk = false ∧
    (UserCreate.parse_obj [("email", .vStr "notanemail")]).isOk = false ∧
    (User.parse_obj [("email", .vStr "notanemail")]).isOk = false :=
  email_without_at_rejected [("email", .vStr "notanemail")] "notanemail"
    (by decide) (by decide)

/-- C4: for each schema, every well-typed input constructs successfully, and
serializing a constructed value and re-constructing from that serialization
yields the same structured value. -/
theorem schemas_construct_and_roundtrip :
    (∀ d, TokenData.wellTyped d = true → ∃ t, TokenData.parse_obj d = .ok t) ∧
    (∀ d t, TokenData.parse_obj d = .ok t → TokenData.parse_obj t.dict = .ok t) ∧
    (∀ d, Token.wellTyped d = true → ∃ t, Token.parse_obj d = .ok t) ∧
    (∀ t : Token, Token.parse_obj t.dict = .ok t) ∧
    (∀ d, UserBase.wellTyped d = true → ∃ u, UserBase.parse_obj d = .ok u) ∧
    (∀ d u, UserBase.parse_obj d = .ok u → UserBase.parse_obj u.dict = .ok u) ∧
    (∀ d, UserCreate.wellTyped d = true → ∃ u, UserCreate.parse_obj d = .ok u) ∧
    (∀ d u, UserCreate.parse_obj d = .ok u → UserCreate.parse_obj u.dict = .ok u) ∧
    (∀ d, User.wellTyped d = true → ∃ u, User.parse_obj d = .ok u) ∧
    (∀ d u, User.parse_obj d = .ok u → User.parse_obj u.dict = .ok u) :=
  ⟨fun _ h => tokenData_ok_of_wellTyped h,
   fun _ _ h => tokenData_roundtrip_dict h,
   fun _ h => token_ok_of_wellTyped h,
   token_roundtrip_dict,
   fun _ h => userBase_ok_of_wellTyped h,
   fun _ _ h => userBase_roundtrip_dict h,
   fun _ h => userCreate_ok_of_wellTyped h,
   fun _ _ h => userCreate_roundtrip_dict h,
   fun _ h => user_ok_of_wellTyped h,
   fun _ _ h => user_roundtrip_dict h⟩

/-- Witness for C4: concrete constructions and round-trips for each schema. -/
theorem schemas_construct_and_roundtrip_witness :
    (∃ t, TokenData.parse_obj [("email", .vStr "a@b.co")] = .ok t) ∧
    TokenData.parse_obj (TokenData.dict ⟨some "a@b.co"⟩) = .ok ⟨some "a@b.co"⟩ ∧
    (∃ t, Token.parse_obj
      [("access_token", .vStr "abc"), ("token_type", .vStr "bearer")] = .ok t) ∧
    Token.parse_obj (Token.dict ⟨"abc", "bearer"⟩) = .ok ⟨"abc", "bearer"⟩ ∧
    (∃ u, UserBase.parse_obj
      [("name", .vStr "Ann"), ("email", .vStr "a@b.co")] = .ok u) ∧
    (∃ u, UserCreate.parse_obj [("name", .vStr "Ann"), ("email", .vStr "a@b.co"),
      ("password", .vStr "pw")] = .ok u) ∧
    (∃ u, User.parse_obj [("name", .vStr "Ann"), ("email", .vStr "a@b.co"),
      ("id", .vInt 1)] = .ok u) ∧
    User.parse_obj (User.dict ⟨"Ann", "a@b.co", none, 1⟩) =
      .ok ⟨"Ann", "a@b.co", none, 1⟩ :=
  ⟨schemas_construct_and_roundtrip.1 [("email", .vStr "a@b.co")] (by decide),
   schemas_construct_and_roundtrip.2.1 [("email", .vStr "a@b.co")]
     ⟨some "a@b.co"⟩ rfl,
   schemas_construct_and_roundtrip.2.2.1
     [("access_token", .vStr "abc"), ("token_type", .vStr "bearer")] (by decide),
   schemas_construct_and_roundtrip.2.2.2.1 ⟨"abc", "bearer"⟩,
   schemas_construct_and_roundtrip.2.2.2.2.1
     [("name", .vStr "Ann"), ("email", .vStr "a@b.co")] (by decide),
   schemas_construct_and_roundtrip.2.2.2.2.2.2.1
     [("name", .vStr "Ann"), ("email", .vStr "a@b.co"), ("password", .vStr "pw")]
     (by decide),
   schemas_construct_and_roundtrip.2.2.2.2.2.2.2.2.1
     [("name", .vStr "Ann"), ("email", .vStr "a@b.co"), ("id", .vInt 1)]
     (by decide),
   schemas_construct_and_roundtrip.2.2.2.2.2.2.2.2.2
     [("name", .vStr "Ann"), ("email", .vStr "a@b.co"), ("id", .vInt 1)]
     ⟨"Ann", "a@b.co", none, 1⟩ rfl⟩

/-- C5: `UserBase` fails without `name` or without `email`; with a name string
and a valid email and no `nickname` entry, construction succeeds and the
absent nickname is represented as `none`. -/
theorem userBase_required_and_optional (d : Record) :
    (lookupField d "name" = none → (UserBase.parse_obj d).isOk = false) ∧
    (lookupField d "email" = none → (UserBase.parse_obj d).isOk = false) ∧
    (∀ n e, lookupField d "name" = some (.vStr n) →
      lookupField d "email" = some (.vStr e) → isValidEmail e = true →
      lookupField d "nickname" = none →
      UserBase.parse_obj d = .ok ⟨n, e, none⟩) := by
  refine ⟨?_, ?_, ?_⟩
  · intro hn
    have h : validateStr (lookupField d "name") = .error "field required" := by
      rw [hn]
      rfl
    exact UserBase.parse_obj_error_of_name h
  · intro he
    have h : validateEmail (lookupField d "email") = .error "field required" := by
      rw [he]
      rfl
    exact UserBase.parse_obj_error_of_email h
  · intro n e hn he hv hnick
    unfold UserBase.parse_obj
    rw [hn, he, hnick]
    simp [validateStr, validateOptStr, validateEmail_vStr_valid hv]

/-- Witness for C5 at concrete records. -/
theorem userBase_required_and_optional_witness :
    (UserBase.parse_obj [("email", .vStr "a@b.co")]).isOk = false ∧
    (UserBase.parse_obj [("name", .vStr "Ann")]).isOk = false ∧
    UserBase.parse_obj [("name", .vStr "Ann"), ("email", .vStr "a@b.co")] =
      .ok ⟨"Ann", "a@b.co", none⟩ :=
  ⟨(userBase_required_and_optional [("email", .vStr "a@b.co")]).1 (by decide),
   (userBase_required_and_optional [("name", .vStr "Ann")]).2.1 (by decide),
   (userBase_required_and_optional
       [("name", .vStr "Ann"), ("email", .vStr "a@b.co")]).2.2 "Ann" "a@b.co"
     (by decide) (by decide) (by decide) (by decide)⟩

/-- C6: `TokenData` accepts the empty input with email defaulting to `none`;
a missing email also gives `none`; a supplied email string is accepted exactly
when it is a syntactically valid email address. -/
theorem tokenData_email_optional (d : Record) (s : String) :
    TokenData.parse_obj [] = .ok ⟨none⟩ ∧
    (lookupField d "email" = none → TokenData.parse_obj d = .ok ⟨none⟩) ∧
    (lookupField d "email" = some (.vStr s) →
      (isValidEmail s = true → TokenData.parse_obj d = .ok ⟨some s⟩) ∧
      (isValidEmail s = false → (TokenData.parse_obj d).isOk = false)) := by
  refine ⟨rfl, ?_, ?_⟩
  · intro h
    unfold TokenData.parse_obj
    rw [h]
    rfl
  · intro h
    constructor
    · intro hv
      unfold TokenData.parse_obj
      rw [h]
      simp [validateOptEmail, validateEmail_vStr_valid hv, Except.map]
    · intro hv
      unfold TokenData.parse_obj
      rw [h]
      simp [validateOptEmail, validateEmail, validateStr, hv, Except.map,
        Except.isOk, Except.toBool]

/-- Witness for C6: empty input, valid email, and invalid email. -/
theorem tokenData_email_optional_witness :
    TokenData.parse_obj [] = .ok ⟨none⟩ ∧
    TokenData.parse_obj [("email", .vStr "a@b.co")] = .ok ⟨some "a@b.co"⟩ ∧
    (TokenData.parse_obj [("email", .vStr "nope")]).isOk = false :=
  ⟨(tokenData_email_optional [] "x").1,
   ((tokenData_email_optional [("email", .vStr "a@b.co")] "a@b.co").2.2
       (by decide)).1 (by decide),
   ((tokenData_email_optional [("email", .vStr "nope")] "nope").2.2
       (by decide)).2 (by decide)⟩

/-- C7: `Token` preserves both supplied strings, and fails when either
`access_token` or `token_type` is missing. -/
theorem token_fields_required (d : Record) :
    (∀ a t, lookupField d "access_token" = some (.vStr a) →
      lookupField d "token_type" = some (.vStr t) →
      Token.parse_obj d = .ok ⟨a, t⟩) ∧
    (lookupField d "access_token" = none → (Token.parse_obj d).isOk = false) ∧
    (lookupField d "token_type" = none → (Token.parse_obj d).isOk = false) := by
  refine ⟨?_, ?_, ?_⟩
  · intro a t ha ht
    unfold Token.parse_obj
    rw [ha, ht]
    rfl
  · intro h
    unfold Token.parse_obj
    rw [h]
    cases validateStr (lookupField d "token_type") <;> rfl
  · intro h
    unfold Token.parse_obj
    rw [h]
    cases validateStr (lookupField d "access_token") <;> rfl

/-- Witness for C7 at concrete records. -/
theorem token_fields_required_witness :
    Token.parse_obj [("access_token", .vStr "abc"), ("token_type", .vStr "bearer")] =
      .ok ⟨"abc", "bearer"⟩ ∧
    (Token.parse_obj [("token_type", .vStr "bearer")]).isOk = false ∧
    (Token.parse_obj [("access_token", .vStr "abc")]).isOk = false :=
  ⟨(token_fields_required
       [("access_token", .vStr "abc"), ("token_type", .vStr "bearer")]).1
     "abc" "bearer" (by decide) (by decide),
   (token_fields_required [("token_type", .vStr "bearer")]).2.1 (by decide),
   (token_fields_required [("access_token", .vStr "abc")]).2.2 (by decide)⟩

/-- C8: with `orm_mode` enabled on `User`, `from_orm` on any source object
exposing `id`, `name` and a valid `email` as attributes succeeds and populates
those fields, with `nickname` defaulting to `none` when absent. -/
theorem user_from_orm_populates (obj : Record) (i : Int) (n e : String)
    (hn : lookupField obj "name" = some (.vStr n))
    (he : lookupField obj "email" = some (.vStr e))
    (hv : isValidEmail e = true)
    (hi : lookupField obj "id" = some (.vInt i))
    (hnick : lookupField obj "nickname" = none) :
    User.orm_mode = true ∧ User.from_orm obj = .ok ⟨n, e, none, i⟩ := by
  refine ⟨rfl, ?_⟩
  unfold User.from_orm User.parse_obj UserBase.parse_obj
  rw [hn, he, hi, hnick]
  simp [User.orm_mode, validateStr, validateInt, validateOptStr,
    validateEmail_vStr_valid hv]

/-- Witness for C8 at a concrete attribute object. -/
theorem user_from_orm_populates_witness :
    User.orm_mode = true ∧
    User.from_orm [("id", .vInt 3), ("name", .vStr "Ann"),
        ("email", .vStr "a@b.co")] = .ok ⟨"Ann", "a@b.co", none, 3⟩ :=
  user_from_orm_populates
    [("id", .vInt 3), ("name", .vStr "Ann"), ("email", .vStr "a@b.co")]
    3 "Ann" "a@b.co" (by decide) (by decide) (by decide) (by decide) (by decide)

/-- C9: for each schema, an input entry with a key outside the declared fields
is ignored by construction, and serialization emits exactly the declared
fields, so unknown keys appear in neither. -/
theorem extra_keys_ignored (k : String) (v : Value) (d : Record) :
    (k ∉ TokenData.fields →
      TokenData.parse_obj ((k, v) :: d) = TokenData.parse_obj d) ∧
    (k ∉ Token.fields → Token.parse_obj ((k, v) :: d) = Token.parse_obj d) ∧
    (k ∉ UserBase.fields →
      UserBase.parse_obj ((k, v) :: d) = UserBase.parse_obj d) ∧
    (k ∉ UserCreate.fields →
      UserCreate.parse_obj ((k, v) :: d) = UserCreate.parse_obj d) ∧
    (k ∉ User.fields → User.parse_obj ((k, v) :: d) = User.parse_obj d) ∧
    (∀ t : TokenData, t.dict.map Prod.fst = TokenData.fields) ∧
    (∀ t : Token, t.dict.map Prod.fst = Token.fields) ∧
    (∀ u : UserBase, u.dict.map Prod.fst = UserBase.fields) ∧
    (∀ u : UserCreate, u.dict.map Prod.fst = UserCreate.fields) ∧
    (∀ u : User, u.dict.map Prod.fst = User.fields) := by
  refine ⟨?_, ?_, ?_, ?_, ?_, fun _ => rfl, fun _ => rfl, fun _ => rfl,
    fun _ => rfl, fun _ => rfl⟩
  · intro h
    simp only [TokenData.fields, List.mem_singleton] at h
    exact tokenData_extra_key v d h
  · intro h
    simp only [Token.fields, List.mem_cons, List.mem_singleton, not_or] at h
    exact token_extra_key v d h.1 h.2.1
  · intro h
    simp only [UserBase.fields, List.mem_cons, List.mem_singleton, not_or] at h
    exact userBase_extra_key v d h.1 h.2.1 h.2.2.1
  · intro h
    simp only [UserCreate.fields, List.mem_cons, List.mem_singleton, not_or] at h
    exact userCreate_extra_key v d h.1 h.2.1 h.2.2.1 h.2.2.2.1
  · intro h
    simp only [User.fields, List.mem_cons, List.mem_singleton, not_or] at h
    exact user_extra_key v d h.1 h.2.1 h.2.2.1 h.2.2.2.1

/-- Witness for C9: a concrete unknown key is dropped by construction and the
serialized keys are exactly the declared fields. -/
theorem extra_keys_ignored_witness :
    TokenData.parse_obj [("extra", .vInt 5), ("email", .vStr "a@b.co")] =
      TokenData.parse_obj [("email", .vStr "a@b.co")] ∧
    User.parse_obj [("extra", .vInt 5), ("name", .vStr "Ann"),
        ("email", .vStr "a@b.co"), ("id", .vInt 1)] =
      User.parse_obj [("name", .vStr "Ann"), ("email", .vStr "a@b.co"),
        ("id", .vInt 1)] ∧
    (User.dict ⟨"Ann", "a@b.co", none, 1⟩).map Prod.fst = User.fields :=
  ⟨(extra_keys_ignored "extra" (.vInt 5) [("email", .vStr "a@b.co")]).1
     (by decide),
   (extra_keys_ignored "extra" (.vInt 5) [("name", .vStr "Ann"),
       ("email", .vStr "a@b.co"), ("id", .vInt 1)]).2.2.2.2.1 (by decide),
   (extra_keys_ignored "extra" (.vInt 5) []).2.2.2.2.2.2.2.2.2
     ⟨"Ann", "a@b.co", none, 1⟩⟩

/-- C10: field values are coerced rather than strictly checked: a `User` whose
`id` is supplied as a decimal numeric string is accepted and stores the parsed
integer, and a `str` field supplied as a number is accepted and stores its
decimal string form. -/
theorem lax_type_coercion (d : Record) (s : String) (i m : Int) :
    (∀ n e, lookupField d "name" = some (.vStr n) →
      lookupField d "email" = some (.vStr e) → isValidEmail e = true →
      lookupField d "nickname" = none →
      lookupField d "id" = some (.vStr s) → parseInt? s = some i →
      User.parse_obj d = .ok ⟨n, e, none, i⟩) ∧
    validateInt (some (.vStr "42")) = .ok 42 ∧
    validateStr (some (.vInt m)) = .ok (toString m) ∧
    (∀ t, lookupField d "access_token" = some (.vInt m) →
      lookupField d "token_type" = some (.vStr t) →
      Token.parse_obj d = .ok ⟨toString m, t⟩) := by
  refine ⟨?_, rfl, rfl, ?_⟩
  · intro n e hn he hv hnick hid hparse
    unfold User.parse_obj UserBase.parse_obj
    rw [hn, he, hnick, hid]
    simp [validateStr, validateOptStr, validateInt, hparse,
      validateEmail_vStr_valid hv]
  · intro t ha ht
    unfold Token.parse_obj
    rw [ha, ht]
    rfl

/-- Witness for C10: `id` given as the string `"42"` stores the integer `42`,
and a `str` field given the number `99` stores the string `"99"`. -/
theorem lax_type_coercion_witness :
    User.parse_obj [("name", .vStr "Ann"), ("email", .vStr "a@b.co"),
        ("id", .vStr "42")] = .ok ⟨"Ann", "a@b.co", none, 42⟩ ∧
    Token.parse_obj [("access_token", .vInt 99), ("token_type", .vStr "bearer")] =
      .ok ⟨"99", "bearer"⟩ :=
  ⟨(lax_type_coercion [("name", .vStr "Ann"), ("email", .vStr "a@b.co"),
        ("id", .vStr "42")] "42" 42 0).1 "Ann" "a@b.co"
     (by decide) (by decide) (by decide) (by decide) (by decide) (by decide),
   (lax_type_coercion [("access_token", .vInt 99), ("token_type", .vStr "bearer")]
       "42" 42 99).2.2.2 "bearer" (by decide) (by decide)⟩
